import Mathlib

/-!
Shallow embedding of the orchestration core of the shoppyshops repository:
the event bus (`ShoppyShop.emit` / `ShoppyShop.on`), the task scheduler
(`ShoppyShop._task_scheduler`), lifecycle (`_initialize_full` / `shutdown`),
and the HTTP boundary (`shopify_webhook`, `service_status`, `event_stream`
in `shoppyshop/views.py`).  Python dict-shaped values are modelled by
`JsonVal` / `PyVal`; handler callables by `Handler` records whose `run`
field gives the callable's behaviour and whose `hid` field models Python
object identity; `datetime` by natural-number timestamps; async execution
is sequentialised exactly as the source awaits each call in turn.
-/

namespace ShopSpec

/-- The `ServiceEvent` enumeration of `shoppyshop/shoppyshop.py`. -/
inductive ServiceEvent where
  | order_created
  | order_updated
  | error
deriving DecidableEq, Repr

/-- Parsed JSON values, as produced by `json.loads` in the webhook view. -/
inductive JsonVal where
  | null
  | bool (b : Bool)
  | num (n : Int)
  | str (s : String)
  | arr (xs : List JsonVal)
  | obj (fields : List (String × JsonVal))
deriving Repr, BEq

/-- Python truthiness of a parsed JSON value (`if not order_id:` in
`views.py`). -/
def jsonTruthy : JsonVal → Bool
  | .null => false
  | .bool b => b
  | .num n => decide (n ≠ 0)
  | .str s => decide (s ≠ "")
  | .arr xs => !xs.isEmpty
  | .obj fs => !fs.isEmpty

/-- Model of `data.get(key)` on a parsed JSON value: on a dict it returns the value
(or Python `None`, modelled as `Option.none`); on any other value the
attribute lookup raises (`Except.error`), which the view's outer handler
turns into HTTP 500. -/
def pyGet : JsonVal → String → Except String (Option JsonVal)
  | .obj fs, k =>
      match fs.find? (fun p => p.1 == k) with
      | some p => .ok (some p.2)
      | none => .ok none
  | _, _ => .error "AttributeError"

/-- Python `str()` of the values that can appear in the webhook `id`
field, used by the f-string `f"gid://shopify/Order/{order_id}"`. -/
def pyStr : JsonVal → String
  | .null => "None"
  | .bool true => "True"
  | .bool false => "False"
  | .num n => toString n
  | .str s => s
  | .arr _ => "<list>"
  | .obj _ => "<dict>"

/-- Values carried by event-bus payloads (`emit(event, data)` takes an
arbitrary Python object; the source only ever passes dicts whose values
are strings, `ServiceEvent` members or parsed JSON). -/
inductive PyVal where
  | vnone
  | str (s : String)
  | event (e : ServiceEvent)
  | json (j : JsonVal)
  | dict (fields : List (String × PyVal))
deriving Repr, BEq

/-- Truthiness of a header value: `request.headers.get` returns `None`
(absent) or a string; the empty string is falsy (`if not hmac or not
topic:`). -/
def headerTruthy : Option String → Bool
  | none => false
  | some s => decide (s ≠ "")

/-- Outcome of the webhook view: HTTP status code plus the list of
`emit` calls the view performed, in order. -/
structure WebhookResult where
  status : Nat
  emits : List (ServiceEvent × PyVal)
deriving Repr

/-- The `shopify_webhook` view of `shoppyshop/views.py`, as a function of the
extracted header values, the result of `initialize_services`, the result
of parsing the request body, and whether `shop.shopify` is set.  Mirrors
the source's control flow: missing headers → 401; topic other than
`orders/create` → 200 with no publish; service init failure → 503; body
parse failure → 400; falsy `id` → 400; missing Shopify client → 503;
otherwise publish `ORDER_CREATED` with the gid-normalised id and return
200.  A non-dict body reaches the outer `except Exception` → 500. -/
def shopify_webhook (hmac topic : Option String) (initResult : Except String Unit)
    (body : Except String JsonVal) (shopifyPresent : Bool) : WebhookResult :=
  if !headerTruthy hmac || !headerTruthy topic then
    ⟨401, []⟩
  else if topic ≠ some "orders/create" then
    ⟨200, []⟩
  else
    match initResult with
    | .error _ => ⟨503, []⟩
    | .ok _ =>
      match body with
      | .error _ => ⟨400, []⟩
      | .ok data =>
        match pyGet data "id" with
        | .error _ => ⟨500, []⟩
        | .ok idOpt =>
          let truthy :=
            match idOpt with
            | none => false
            | some v => jsonTruthy v
          if !truthy then
            ⟨400, []⟩
          else
            let idVal := idOpt.getD .null
            let gid := "gid://shopify/Order/" ++ pyStr idVal
            if !shopifyPresent then
              ⟨503, []⟩
            else
              ⟨200, [(ServiceEvent.order_created,
                PyVal.dict [("order_id", PyVal.str gid),
                            ("source", PyVal.str "shopify"),
                            ("raw_data", PyVal.json data)])]⟩

/-- An event-bus handler: `hid` models Python object identity (the `in` /
`not in` checks on `self.event_handlers[event]` compare function objects
by identity), `name` models `handler.__name__`, and `run` gives the
callable's behaviour on a payload — normal return (`Except.ok`) or a
raised exception with message `str(e)` (`Except.error`). -/
structure Handler where
  hid : Nat
  name : String
  run : PyVal → Except String Unit

/-- The registration table `self.event_handlers`: a `defaultdict(list)`
keyed by the three `ServiceEvent` members. -/
structure Bus where
  order_created : List Handler
  order_updated : List Handler
  error : List Handler

/-- Read of `self.event_handlers[event]` (the defaultdict read). -/
def Bus.get (b : Bus) : ServiceEvent → List Handler
  | .order_created => b.order_created
  | .order_updated => b.order_updated
  | .error => b.error

/-- Replace the handler list stored for one event kind. -/
def Bus.set (b : Bus) : ServiceEvent → List Handler → Bus
  | .order_created, hs => { b with order_created := hs }
  | .order_updated, hs => { b with order_updated := hs }
  | .error, hs => { b with error := hs }

/-- The empty registration table (fresh `defaultdict(list)`). -/
def Bus.empty : Bus := ⟨[], [], []⟩

/-- Identity-based membership test used by `ShoppyShop.on`
(`if handler not in self.event_handlers[event]`). -/
def hidMem (hs : List Handler) (hid : Nat) : Bool :=
  hs.any (fun g => g.hid == hid)

/-- Model of `ShoppyShop.on`: append the handler to the list for `event` unless an
identical handler reference is already registered there. -/
def Bus.on (b : Bus) (event : ServiceEvent) (h : Handler) : Bus :=
  if hidMem (b.get event) h.hid then b
  else b.set event (b.get event ++ [h])

/-- Repeated registration: `n` successive `on event h` calls starting from `b`. -/
def Bus.onN (b : Bus) (event : ServiceEvent) (h : Handler) : Nat → Bus
  | 0 => b
  | n + 1 => (b.onN event h n).on event h

/-- Number of entries in a handler list with the given identity. -/
def countHid (hs : List Handler) (hid : Nat) : Nat :=
  (hs.filter (fun g => g.hid == hid)).length

/-- The payload `{"event": event, "error": str(e), "handler": handler_name}`
built in `ShoppyShop.emit`'s exception branch. -/
def errorPayload (event : ServiceEvent) (msg hname : String) : PyVal :=
  PyVal.dict [("event", PyVal.event event), ("error", PyVal.str msg),
              ("handler", PyVal.str hname)]

/-- One observable step of `ShoppyShop.emit`.  `depth` is the nesting
level of the `emit` call performing the step (0 for the caller's publish,
1 for the `Error` publish triggered by a failing handler, and so on);
it is trace instrumentation only and does not influence behaviour. -/
inductive Action where
  | publish (depth : Nat) (event : ServiceEvent) (data : PyVal)
  | invoke (depth : Nat) (hid : Nat) (hname : String) (event : ServiceEvent) (ok : Bool)
  | logError (depth : Nat) (hname : String) (event : ServiceEvent) (msg : String)
deriving Repr, BEq

/-- The `for handler in handlers:` loop body of `ShoppyShop.emit`:
invoke each handler in list order; on an exception, log it and perform
the nested `emit(ServiceEvent.ERROR, …)` given by `nested` before moving
to the next handler.  `none` propagates a nested publish that never
completes. -/
def emitLoopWith (nested : ServiceEvent → PyVal → Option (List Action))
    (depth : Nat) : List Handler → ServiceEvent → PyVal → Option (List Action)
  | [], _, _ => some []
  | h :: hs, event, data =>
    match h.run data with
    | .ok _ =>
      (emitLoopWith nested depth hs event data).map
        (fun tr => Action.invoke depth h.hid h.name event true :: tr)
    | .error msg =>
      match nested ServiceEvent.error (errorPayload event msg h.name) with
      | none => none
      | some nestedTr =>
        (emitLoopWith nested depth hs event data).map
          (fun tr => Action.invoke depth h.hid h.name event false
            :: Action.logError depth h.name event msg :: nestedTr ++ tr)

/-- Model of `ShoppyShop.emit`: read the handler list registered for `event` and
run the loop; a failing handler triggers a recursive
`emit(ServiceEvent.ERROR, {"event": …, "error": …, "handler": …})` with
no depth guard in the source, so the recursion is bounded here only by
`fuel`: a `none` result means the call does not complete within nesting
depth `fuel` (the source diverges on an unbounded `Error` cascade). -/
def emit : Nat → Nat → Bus → ServiceEvent → PyVal → Option (List Action)
  | 0, _, _, _, _ => none
  | fuel + 1, depth, bus, event, data =>
    (emitLoopWith (emit fuel (depth + 1) bus) depth (bus.get event) event data).map
      (fun tr => Action.publish depth event data :: tr)

/-- The payloads of the `Error` publishes in a trace, in order. -/
def errorPublishData (tr : List Action) : List PyVal :=
  tr.filterMap (fun a =>
    match a with
    | .publish _ ServiceEvent.error p => some p
    | _ => none)

/-- The handler invocations a given `emit` nesting level performed, in
order: `(identity, name, succeeded?)`. -/
def invokesAt (depth : Nat) (tr : List Action) : List (Nat × String × Bool) :=
  tr.filterMap (fun a =>
    match a with
    | .invoke d hid hname _ ok => if d = depth then some (hid, hname, ok) else none
    | _ => none)

/-- Whether an `Except` result is a normal return. -/
def isOkB : Except String Unit → Bool
  | .ok _ => true
  | .error _ => false

/-- A scheduled task (`Task` in `shoppyshop/shoppyshop.py`): timestamps
are naturals, `run` gives `task.func`'s behaviour when started at a given
time — normal return or a raised exception. -/
structure Task where
  interval : Nat
  name : String
  lastRun : Option Nat
  isRunning : Bool
  run : Nat → Except String Unit

/-- The scheduler's due test: `not task.last_run or
datetime.now() - task.last_run >= task.interval`. -/
def taskDue (now : Nat) (t : Task) : Bool :=
  t.lastRun.isNone || decide (t.interval ≤ now - t.lastRun.getD 0)

/-- One iteration of the `for task in self.tasks:` body of
`ShoppyShop._task_scheduler` on a single task: if the task is due and not
running it is started (`is_running = True`), its callback runs, and on
normal return `last_run` is set to the completion time `doneAt`; on an
exception the error is only logged and `last_run` is left unchanged; the
`finally` block resets `is_running` in both cases. -/
def runTaskStep (now doneAt : Nat) (t : Task) : Task :=
  if taskDue now t then
    if !t.isRunning then
      match t.run now with
      | .ok _ => { t with lastRun := some doneAt, isRunning := false }
      | .error _ => { t with isRunning := false }
    else t
  else t

/-- Python exceptions distinguished by `_initialize_full`'s two `except`
clauses: `AttributeError` (first clause) versus any other `Exception`. -/
inductive PyExc where
  | attributeError (msg : String)
  | otherExc (msg : String)
deriving Repr, DecidableEq

/-- The errors `_initialize_full` raises to its caller. -/
inductive InitError where
  | credentials (msg : String)
  | initFailed (msg : String)
deriving Repr, DecidableEq

/-- The orchestrator state touched by `_initialize_full` and `shutdown`:
the class-level `_initialized` and `_default_handlers_registered` flags,
the registration table, whether the scheduler task is live, whether the
three service attributes have been assigned, and whether their clients
are open. -/
structure OrchState where
  initialized : Bool
  defaultHandlersRegistered : Bool
  bus : Bus
  taskLoopRunning : Bool
  servicesSet : Bool
  clientsOpen : Bool

/-- The default `_handle_order_created` handler registered by
`_register_default_handlers`.  As a callable it always returns normally
(its body catches every exception and converts it into an `Error`
emission); its internal order-processing effects play no part in the
lifecycle claims. -/
def defaultOrderHandler : Handler :=
  ⟨0, "_handle_order_created", fun _ => Except.ok ()⟩

/-- Model of `ShoppyShop._initialize_full` as a function of the outcomes of the
settings reads (an `AttributeError` when an environment variable is
missing) and of each adapter's `initialize` call, performed in source
order (Shopify, eBay, Meta — a failure skips the rest).  An
`AttributeError` from anywhere in the `try` body is re-raised as
`ServiceCredentialsError` and leaves the flag untouched (it was `False`
on entry); any other exception sets `_initialized = False` and re-raises
as `ServiceInitializationError`.  On success the default handler is
registered once, the scheduler task is started and `_initialized`
becomes `True`. -/
def initFull (st : OrchState) (settings : Except PyExc Unit)
    (sInit eInit mInit : Except PyExc Unit) : OrchState × Except InitError Unit :=
  if st.initialized then (st, Except.ok ())
  else
    let dispatch : OrchState → PyExc → OrchState × Except InitError Unit := fun st1 exc =>
      match exc with
      | .attributeError msg =>
          (st1, Except.error (.credentials ("Missing environment variable: " ++ msg)))
      | .otherExc msg =>
          ({ st1 with initialized := false },
           Except.error (.initFailed ("Failed to set up services: " ++ msg)))
    match settings with
    | .error exc => dispatch st exc
    | .ok _ =>
      let st1 := { st with servicesSet := true }
      match sInit with
      | .error exc => dispatch st1 exc
      | .ok _ =>
        match eInit with
        | .error exc => dispatch st1 exc
        | .ok _ =>
          match mInit with
          | .error exc => dispatch st1 exc
          | .ok _ =>
            let st2 :=
              if !st1.defaultHandlersRegistered then
                { st1 with bus := st1.bus.on ServiceEvent.order_created defaultOrderHandler,
                           defaultHandlersRegistered := true }
              else st1
            ({ st2 with taskLoopRunning := true, clientsOpen := true, initialized := true },
             Except.ok ())

/-- Model of `ShoppyShop.shutdown`: a no-op when `_initialized` is `False`;
otherwise cancel the scheduler task, close every service client (reading
`self.shopify` / `self.ebay` / `self.meta`, which raises `AttributeError`
if they were never assigned) and reset both class-level flags.  The
registration table is not cleared. -/
def shutdown (st : OrchState) : Except String OrchState :=
  if !st.initialized then Except.ok st
  else if !st.servicesSet then Except.error "AttributeError"
  else Except.ok { st with taskLoopRunning := false, clientsOpen := false,
                           initialized := false, defaultHandlersRegistered := false }

/-- Body of the `service_status` view's response. -/
inductive StatusBody where
  | mapping (m : List (String × String))
  | errorHtml
deriving Repr, DecidableEq

/-- HTTP outcome of the `service_status` view. -/
structure StatusResult where
  status : Nat
  body : StatusBody
deriving Repr, DecidableEq

/-- The `service_status` view of `shoppyshop/views.py` as a function of
the three `check_status` outcomes.  The single `try` block evaluates the
three awaits in source order, so the first failure aborts the dict
construction (later adapters are never consulted) and the `except`
returns the HTTP 500 error snippet instead of any mapping. -/
def service_status (shopify ebay meta : Except String String) : StatusResult :=
  match shopify with
  | .error _ => ⟨500, .errorHtml⟩
  | .ok a =>
    match ebay with
    | .error _ => ⟨500, .errorHtml⟩
    | .ok b =>
      match meta with
      | .error _ => ⟨500, .errorHtml⟩
      | .ok c => ⟨200, .mapping [("shopify", a), ("ebay", b), ("meta", c)]⟩

/-- The SSE `retry:` directive yielded first by `event_generator`. -/
def retryFrame (rt : Nat) : String := "retry: " ++ toString rt ++ "\n\n"

/-- The `event: open` frame yielded before the streaming loop. -/
def openFrame : String := "event: open\ndata: \x7b\x7d\n\n"

/-- One SSE frame as built in the streaming loop:
`f"event: {event}\ndata: {data}\n\n"`. -/
def sseFrame (ev data : String) : String :=
  "event: " ++ ev ++ "\ndata: " ++ data ++ "\n\n"

/-- Model of `handle_event` of the SSE view: render the notification and enqueue
`{"event": "notification", "data": html}` at the back of the
connection's queue (FIFO).  The rendered HTML is taken as given, since
the template is outside the orchestration core. -/
def handle_event (queue : List (String × String)) (notificationHtml : String) :
    List (String × String) :=
  queue ++ [("notification", notificationHtml)]

/-- The `while True:` drain loop of `event_generator`, applied to the
queue contents it will dequeue: each item yields one framed message. -/
def drainLoop : List (String × String) → List String
  | [] => []
  | (e, d) :: rest => sseFrame e d :: drainLoop rest

/-- Model of `event_generator` of `shoppyshop/views.py`, restricted to a finite
prefix of the stream: the `retry:` directive, then the `open` frame,
then one frame per dequeued item in FIFO order. -/
def event_generator (rt : Nat) (queue : List (String × String)) : List String :=
  retryFrame rt :: openFrame :: drainLoop queue

/-- Whether a `service_status` response body is a per-platform mapping. -/
def StatusBody.isMapping : StatusBody → Bool
  | .mapping _ => true
  | .errorHtml => false

/-- Whether a `check_status` outcome is a normal return. -/
def statusOk : Except String String → Bool
  | .ok _ => true
  | .error _ => false

/-- Whether an adapter `initialize` outcome is a normal return. -/
def pyOk : Except PyExc Unit → Bool
  | .ok _ => true
  | .error _ => false

/-- Whether `_initialize_full` surfaced an error to its caller. -/
def raisedInitError : Except InitError Unit → Bool
  | .ok _ => false
  | .error _ => true

section BusLemmas

/-- Reading back the handler list just stored for an event kind. -/
theorem Bus.get_set (b : Bus) (e : ServiceEvent) (l : List Handler) :
    (b.set e l).get e = l := by
  cases e <;> rfl

/-- Membership test `hidMem` is the boolean reflection of `countHid` being positive. -/
theorem hidMem_eq_false_iff (hs : List Handler) (hid : Nat) :
    hidMem hs hid = false ↔ countHid hs hid = 0 := by
  simp [hidMem, countHid, List.any_eq_true, List.length_eq_zero,
    List.filter_eq_nil_iff]

/-- Count `countHid` distributes over list append. -/
theorem countHid_append (l1 l2 : List Handler) (hid : Nat) :
    countHid (l1 ++ l2) hid = countHid l1 hid + countHid l2 hid := by
  simp [countHid, List.filter_append]

/-- A single fresh registration leaves exactly one entry. -/
theorem countHid_on_fresh (b : Bus) (e : ServiceEvent) (h : Handler)
    (hfresh : countHid (b.get e) h.hid = 0) :
    countHid ((b.on e h).get e) h.hid = 1 := by
  have hm : hidMem (b.get e) h.hid = false := (hidMem_eq_false_iff _ _).mpr hfresh
  simp only [Bus.on, hm, Bool.false_eq_true, if_false, Bus.get_set]
  rw [countHid_append, hfresh]
  simp [countHid]

/-- Registering an already present handler is a no-op. -/
theorem on_mem_noop (b : Bus) (e : ServiceEvent) (h : Handler)
    (hmem : countHid (b.get e) h.hid = 1) :
    b.on e h = b := by
  have hm : hidMem (b.get e) h.hid = true := by
    cases hb : hidMem (b.get e) h.hid with
    | false => rw [(hidMem_eq_false_iff _ _).mp hb] at hmem; omega
    | true => rfl
  simp [Bus.on, hm]

end BusLemmas

/-- C6: subscribe is idempotent by handler identity — starting from a
table with no entry for the handler's identity under the given kind,
any positive number of repeated `on(kind, handler)` calls leaves exactly
one entry for that handler under that kind. -/
theorem on_idempotent (b : Bus) (e : ServiceEvent) (h : Handler) (n : Nat)
    (hfresh : countHid (b.get e) h.hid = 0) :
    countHid ((b.onN e h (n + 1)).get e) h.hid = 1 := by
  induction n with
  | zero => simpa [Bus.onN] using countHid_on_fresh b e h hfresh
  | succ m ih =>
    have : (b.onN e h (m + 1 + 1)) = (b.onN e h (m + 1)).on e h := rfl
    rw [this, on_mem_noop _ _ _ ih]
    exact ih

/-- Witness for C6 at a concrete handler and table. -/
theorem on_idempotent_witness :
    countHid ((Bus.empty.onN ServiceEvent.order_created
      ⟨7, "my_handler", fun _ => Except.ok ()⟩ 3).get ServiceEvent.order_created) 7 = 1 :=
  on_idempotent Bus.empty ServiceEvent.order_created
    ⟨7, "my_handler", fun _ => Except.ok ()⟩ 2 rfl

/-- C8: shutdown is idempotent — a second call right after a completed
shutdown is a no-op returning the state unchanged, and a call on a
never-initialized orchestrator is likewise an error-free no-op. -/
theorem shutdown_idempotent :
    (∀ st st', shutdown st = Except.ok st' → shutdown st' = Except.ok st') ∧
    (∀ st, st.initialized = false → shutdown st = Except.ok st) := by
  constructor
  · intro st st' hok
    unfold shutdown at hok ⊢
    by_cases hi : st.initialized
    · by_cases hs : st.servicesSet
      · simp only [hi, Bool.not_true, Bool.false_eq_true, if_false, hs,
          if_true] at hok
        cases hok
        simp
      · simp [hi, hs] at hok
    · simp only [hi, Bool.not_false, if_true, Except.ok.injEq] at hok
      subst hok
      simp [hi]
  · intro st hi
    unfold shutdown
    simp [hi]

/-- Witness for C8 on a concrete never-initialized state. -/
theorem shutdown_idempotent_witness :
    shutdown ⟨false, false, Bus.empty, false, false, false⟩ =
      Except.ok ⟨false, false, Bus.empty, false, false, false⟩ :=
  shutdown_idempotent.2 ⟨false, false, Bus.empty, false, false, false⟩ rfl

/-- C2 counterexample: with the first adapter's `check_status` failing
and the other two healthy, the status view returns the HTTP 500 error
snippet — no per-platform mapping is produced and the healthy adapters'
results are not reported, contrary to the claim. -/
theorem service_status_partial_failure_cex :
    service_status (Except.error "connection refused") (Except.ok "ok") (Except.ok "ok") =
      ⟨500, StatusBody.errorHtml⟩ ∧
    (service_status (Except.error "connection refused") (Except.ok "ok")
      (Except.ok "ok")).body.isMapping = false := by
  exact ⟨rfl, rfl⟩

/-- C2 amended: the status view never raises — it always returns a
response — but per-adapter independence does not hold: only when all
three `check_status` calls succeed does it return the per-platform
mapping (HTTP 200); as soon as any adapter fails, the single `except`
returns the HTTP 500 error snippet and no per-platform results are
reported. -/
theorem service_status_amended (s e m : Except String String) :
    (∀ a b c, s = Except.ok a → e = Except.ok b → m = Except.ok c →
      service_status s e m =
        ⟨200, StatusBody.mapping [("shopify", a), ("ebay", b), ("meta", c)]⟩) ∧
    ((statusOk s = false ∨ statusOk e = false ∨ statusOk m = false) →
      service_status s e m = ⟨500, StatusBody.errorHtml⟩) := by
  constructor
  · intro a b c hs he hm
    subst hs; subst he; subst hm
    rfl
  · intro hfail
    cases s with
    | error _ => rfl
    | ok a =>
      cases e with
      | error _ => rfl
      | ok b =>
        cases m with
        | error _ => rfl
        | ok c => simp [statusOk] at hfail

/-- Witness for C2's amended theorem at concrete outcomes. -/
theorem service_status_amended_witness :
    service_status (Except.ok "up") (Except.error "boom") (Except.ok "up") =
      ⟨500, StatusBody.errorHtml⟩ :=
  (service_status_amended (Except.ok "up") (Except.error "boom")
    (Except.ok "up")).2 (Or.inr (Or.inl rfl))

/-- A task whose callback raises on every run, used to exhibit the
scheduler's failure handling. -/
def alwaysFailingTask : Task :=
  ⟨10, "always_failing", none, false, fun _ => Except.error "boom"⟩

/-- C3 counterexample: a due task whose callback raises at time 5 comes
out of the cycle with `last_run` still unset (not the completion time),
and is therefore due again at time 6 — the immediately following cycle
— although its interval is 10. -/
theorem task_failure_busy_loop_cex :
    (runTaskStep 5 5 alwaysFailingTask).lastRun = none ∧
    taskDue 6 (runTaskStep 5 5 alwaysFailingTask) = true := ⟨rfl, rfl⟩

/-- C3 amended: after a due, idle task's callback completes, the task is
back to idle (`is_running = False` via the `finally`), but `last_run` is
set to the completion time only on normal return; on an exception
`last_run` is unchanged, so the due test is exactly what it was before
the run and a persistently failing task is re-attempted on the very next
scheduler cycle. -/
theorem task_scheduler_amended (now doneAt : Nat) (t : Task)
    (hidle : t.isRunning = false) (hdue : taskDue now t = true) :
    (runTaskStep now doneAt t).isRunning = false ∧
    (isOkB (t.run now) = true → (runTaskStep now doneAt t).lastRun = some doneAt) ∧
    (isOkB (t.run now) = false →
      (runTaskStep now doneAt t).lastRun = t.lastRun ∧
      ∀ m, taskDue m (runTaskStep now doneAt t) = taskDue m t) := by
  unfold runTaskStep
  rw [hdue, hidle]
  cases hr : t.run now with
  | ok _ => exact ⟨rfl, fun _ => rfl, fun hc => by simp [isOkB, hr] at hc⟩
  | error msg =>
    refine ⟨rfl, fun hc => by simp [isOkB, hr] at hc, fun _ => ⟨rfl, fun m => ?_⟩⟩
    simp [taskDue]

/-- Witness for C3's amended theorem on the concrete failing task. -/
theorem task_scheduler_amended_witness :
    (runTaskStep 5 5 alwaysFailingTask).isRunning = false ∧
    (isOkB (alwaysFailingTask.run 5) = true →
      (runTaskStep 5 5 alwaysFailingTask).lastRun = some 5) ∧
    (isOkB (alwaysFailingTask.run 5) = false →
      (runTaskStep 5 5 alwaysFailingTask).lastRun = alwaysFailingTask.lastRun ∧
      ∀ m, taskDue m (runTaskStep 5 5 alwaysFailingTask) = taskDue m alwaysFailingTask) :=
  task_scheduler_amended 5 5 alwaysFailingTask rfl rfl

section SseLemmas

/-- The drain loop distributes over queue concatenation. -/
theorem drainLoop_append (a b : List (String × String)) :
    drainLoop (a ++ b) = drainLoop a ++ drainLoop b := by
  induction a with
  | nil => rfl
  | cons x t ih => cases x; simp [drainLoop, ih]

/-- Folding `handle_event` over the arriving notifications appends one
`notification` item per arrival, preserving arrival order. -/
theorem foldl_handle_event (htmls : List String) (q : List (String × String)) :
    htmls.foldl handle_event q = q ++ htmls.map (fun h => ("notification", h)) := by
  induction htmls generalizing q with
  | nil => simp
  | cons h t ih => simp [List.foldl, handle_event, ih]

/-- Draining a queue of `notification` items frames each one. -/
theorem drainLoop_map (htmls : List String) :
    drainLoop (htmls.map (fun h => ("notification", h))) =
      htmls.map (fun h => sseFrame "notification" h) := by
  induction htmls with
  | nil => rfl
  | cons h t ih => simp [drainLoop, ih]

end SseLemmas

/-- C9: for every connection, the emitted sequence starts with the
`retry:` directive, then the `open` frame, then — for any sequence of
notifications enqueued by `handle_event` into an initially empty queue —
one `event: notification\ndata: <rendered text>\n\n` frame per
notification, in FIFO arrival order. -/
theorem event_stream_frames (rt : Nat) (htmls : List String) :
    event_generator rt (htmls.foldl handle_event []) =
      retryFrame rt :: openFrame ::
        htmls.map (fun h => sseFrame "notification" h) := by
  rw [event_generator, foldl_handle_event, List.nil_append, drainLoop_map]

/-- C4: a webhook POST with truthy headers, topic `orders/create`,
body `{"id": 12345}`, successful service setup and a live Shopify client
returns HTTP 200 and performs exactly one `ORDER_CREATED` emit whose
payload has `order_id` equal to `"gid://shopify/Order/12345"` and
`source` equal to `"shopify"`. -/
theorem shopify_webhook_order_created_ok (hmac : Option String)
    (hh : headerTruthy hmac = true) :
    shopify_webhook hmac (some "orders/create") (Except.ok ())
      (Except.ok (JsonVal.obj [("id", JsonVal.num 12345)])) true =
    ⟨200, [(ServiceEvent.order_created,
      PyVal.dict [("order_id", PyVal.str "gid://shopify/Order/12345"),
                  ("source", PyVal.str "shopify"),
                  ("raw_data", PyVal.json (JsonVal.obj [("id", JsonVal.num 12345)]))])]⟩ := by
  unfold shopify_webhook
  rw [hh]
  rfl

/-- Witness for C4 at a concrete signature header. -/
theorem shopify_webhook_order_created_ok_witness :
    shopify_webhook (some "mock-hmac") (some "orders/create") (Except.ok ())
      (Except.ok (JsonVal.obj [("id", JsonVal.num 12345)])) true =
    ⟨200, [(ServiceEvent.order_created,
      PyVal.dict [("order_id", PyVal.str "gid://shopify/Order/12345"),
                  ("source", PyVal.str "shopify"),
                  ("raw_data", PyVal.json (JsonVal.obj [("id", JsonVal.num 12345)]))])]⟩ :=
  shopify_webhook_order_created_ok (some "mock-hmac") rfl

/-- C10: with valid headers, topic `orders/create`, services up and a
parseable body whose `id` key is present but carries a falsy value, the
webhook returns HTTP 400 and publishes nothing — the guard tests
truthiness of the value, not presence of the key. -/
theorem shopify_webhook_falsy_id (hmac : Option String) (v : JsonVal)
    (hh : headerTruthy hmac = true) (hv : jsonTruthy v = false) :
    shopify_webhook hmac (some "orders/create") (Except.ok ())
      (Except.ok (JsonVal.obj [("id", v)])) true = ⟨400, []⟩ := by
  unfold shopify_webhook
  rw [hh]
  have hget : pyGet (JsonVal.obj [("id", v)]) "id" = Except.ok (some v) := rfl
  simp only [Bool.not_true, Bool.false_or, hget, hv]
  rfl

/-- Witness for C10 at `{"id": 0}`. -/
theorem shopify_webhook_falsy_id_witness :
    shopify_webhook (some "mock-hmac") (some "orders/create") (Except.ok ())
      (Except.ok (JsonVal.obj [("id", JsonVal.num 0)])) true = ⟨400, []⟩ :=
  shopify_webhook_falsy_id (some "mock-hmac") (JsonVal.num 0) rfl rfl

/-- Nesting level at which a trace step happened. -/
def actionDepth : Action → Nat
  | .publish d _ _ => d
  | .invoke d _ _ _ _ => d
  | .logError d _ _ _ => d

section EmitLemmas

/-- Every step recorded by the handler loop happens at the loop's own
nesting level or deeper (nested `Error` publishes are deeper). -/
theorem emitLoopWith_depth_ge
    (nested : ServiceEvent → PyVal → Option (List Action)) (depth : Nat)
    (hnested : ∀ ev2 p tr2, nested ev2 p = some tr2 →
      ∀ a ∈ tr2, depth + 1 ≤ actionDepth a) :
    ∀ (hs : List Handler) (ev : ServiceEvent) (data : PyVal) (tr : List Action),
      emitLoopWith nested depth hs ev data = some tr →
      ∀ a ∈ tr, depth ≤ actionDepth a := by
  intro hs
  induction hs with
  | nil =>
    intro ev data tr hrun a ha
    simp only [emitLoopWith, Option.some.injEq] at hrun
    subst hrun
    simp at ha
  | cons h hs ih =>
    intro ev data tr hrun a ha
    simp only [emitLoopWith] at hrun
    cases hr : h.run data with
    | ok u =>
      rw [hr] at hrun
      cases hloop : emitLoopWith nested depth hs ev data with
      | none => rw [hloop] at hrun; simp at hrun
      | some tr0 =>
        rw [hloop] at hrun
        simp only [Option.map_some', Option.some.injEq] at hrun
        subst hrun
        rcases List.mem_cons.mp ha with rfl | ha0
        · exact Nat.le_refl _
        · exact ih ev data tr0 hloop a ha0
    | error msg =>
      simp only [hr] at hrun
      cases hn : nested ServiceEvent.error (errorPayload ev msg h.name) with
      | none => simp [hn] at hrun
      | some nestedTr =>
        simp only [hn, Option.map_eq_some'] at hrun
        obtain ⟨tr0, hloop, htr⟩ := hrun
        subst htr
        rcases List.mem_cons.mp ha with rfl | ha1
        · exact Nat.le_refl _
        rcases List.mem_cons.mp ha1 with rfl | ha2
        · exact Nat.le_refl _
        rcases List.mem_append.mp ha2 with hin | hin
        · exact Nat.le_of_succ_le (hnested _ _ _ hn a hin)
        · exact ih ev data tr0 hloop a hin

/-- Every step recorded by an `emit` call happens at that call's nesting
level or deeper. -/
theorem emit_depth_ge (fuel : Nat) :
    ∀ (depth : Nat) (bus : Bus) (ev : ServiceEvent) (data : PyVal) (tr : List Action),
      emit fuel depth bus ev data = some tr → ∀ a ∈ tr, depth ≤ actionDepth a := by
  induction fuel with
  | zero => intro depth bus ev data tr hrun; simp [emit] at hrun
  | succ fuel ih =>
    intro depth bus ev data tr hrun a ha
    simp only [emit] at hrun
    cases hloop : emitLoopWith (emit fuel (depth + 1) bus) depth (bus.get ev) ev data with
    | none => rw [hloop] at hrun; simp at hrun
    | some tr0 =>
      rw [hloop] at hrun
      simp only [Option.map_some', Option.some.injEq] at hrun
      subst hrun
      rcases List.mem_cons.mp ha with rfl | ha0
      · exact Nat.le_refl _
      · exact emitLoopWith_depth_ge (emit fuel (depth + 1) bus) depth
          (fun ev2 p tr2 h2 => ih (depth + 1) bus ev2 p tr2 h2)
          (bus.get ev) ev data tr0 hloop a ha0

/-- A trace segment that lies strictly deeper contributes no invocation
at the outer level. -/
theorem invokesAt_nil_of_deeper (depth : Nat) (l : List Action)
    (hall : ∀ a ∈ l, depth + 1 ≤ actionDepth a) : invokesAt depth l = [] := by
  induction l with
  | nil => rfl
  | cons a l ih =>
    have ha := hall a (List.mem_cons_self a l)
    have hrest := ih (fun b hb => hall b (List.mem_cons_of_mem a hb))
    cases a with
    | publish d ev p => simpa [invokesAt, List.filterMap_cons] using hrest
    | logError d n ev msg => simpa [invokesAt, List.filterMap_cons] using hrest
    | invoke d hid n ev ok =>
      have hne : ¬d = depth := by
        simp only [actionDepth] at ha
        omega
      simpa [invokesAt, List.filterMap_cons, hne] using hrest

/-- Extraction `invokesAt` distributes over trace concatenation. -/
theorem invokesAt_append (depth : Nat) (l1 l2 : List Action) :
    invokesAt depth (l1 ++ l2) = invokesAt depth l1 ++ invokesAt depth l2 := by
  simp [invokesAt, List.filterMap_append]

/-- The handler loop invokes exactly the handlers of its list, in list
order, recording for each whether its call returned normally. -/
theorem emitLoopWith_invokes
    (nested : ServiceEvent → PyVal → Option (List Action)) (depth : Nat)
    (hnested : ∀ ev2 p tr2, nested ev2 p = some tr2 →
      ∀ a ∈ tr2, depth + 1 ≤ actionDepth a) :
    ∀ (hs : List Handler) (ev : ServiceEvent) (data : PyVal) (tr : List Action),
      emitLoopWith nested depth hs ev data = some tr →
      invokesAt depth tr = hs.map (fun h => (h.hid, h.name, isOkB (h.run data))) := by
  intro hs
  induction hs with
  | nil =>
    intro ev data tr hrun
    simp only [emitLoopWith, Option.some.injEq] at hrun
    subst hrun
    rfl
  | cons h hs ih =>
    intro ev data tr hrun
    simp only [emitLoopWith] at hrun
    cases hr : h.run data with
    | ok u =>
      simp only [hr, Option.map_eq_some'] at hrun
      obtain ⟨tr0, hloop, htr⟩ := hrun
      subst htr
      have hhead : invokesAt depth (Action.invoke depth h.hid h.name ev true :: tr0) =
          (h.hid, h.name, true) :: invokesAt depth tr0 := by
        simp [invokesAt, List.filterMap_cons]
      rw [hhead, ih ev data tr0 hloop, List.map_cons, hr]
      rfl
    | error msg =>
      simp only [hr] at hrun
      cases hn : nested ServiceEvent.error (errorPayload ev msg h.name) with
      | none => simp [hn] at hrun
      | some nestedTr =>
        simp only [hn, Option.map_eq_some'] at hrun
        obtain ⟨tr0, hloop, htr⟩ := hrun
        subst htr
        have hnil : invokesAt depth nestedTr = [] :=
          invokesAt_nil_of_deeper depth nestedTr (hnested _ _ _ hn)
        have hhead : invokesAt depth (Action.invoke depth h.hid h.name ev false ::
            Action.logError depth h.name ev msg :: nestedTr ++ tr0) =
            (h.hid, h.name, false) :: (invokesAt depth nestedTr ++ invokesAt depth tr0) := by
          simp [invokesAt, List.filterMap_cons, List.filterMap_append]
        rw [hhead, hnil, List.nil_append, ih ev data tr0 hloop, List.map_cons, hr]
        rfl

end EmitLemmas

/-- C5: whenever `emit(kind, payload)` completes, the invocations it
performed at its own level are exactly one per handler registered for
`kind`, in registration order, each recorded with its own
success/failure — so all registered handlers are awaited in turn before
`emit` returns and a handler's exception is absorbed into the trace
rather than propagated (the result is still `some`). -/
theorem emit_sequential_complete (fuel depth : Nat) (bus : Bus) (ev : ServiceEvent)
    (data : PyVal) (tr : List Action)
    (hrun : emit fuel depth bus ev data = some tr) :
    invokesAt depth tr = (bus.get ev).map (fun h => (h.hid, h.name, isOkB (h.run data))) := by
  cases fuel with
  | zero => simp [emit] at hrun
  | succ fuel =>
    simp only [emit] at hrun
    cases hloop : emitLoopWith (emit fuel (depth + 1) bus) depth (bus.get ev) ev data with
    | none => rw [hloop] at hrun; simp at hrun
    | some tr0 =>
      rw [hloop] at hrun
      simp only [Option.map_some', Option.some.injEq] at hrun
      subst hrun
      have : invokesAt depth (Action.publish depth ev data :: tr0) = invokesAt depth tr0 := by
        simp [invokesAt, List.filterMap_cons]
      rw [this]
      exact emitLoopWith_invokes (emit fuel (depth + 1) bus) depth
        (fun ev2 p tr2 h2 => emit_depth_ge fuel (depth + 1) bus ev2 p tr2 h2)
        (bus.get ev) ev data tr0 hloop

/-- A handler that always succeeds, for the C5 witness bus. -/
def seqOkHandler : Handler := ⟨10, "handler_ok", fun _ => Except.ok ()⟩

/-- A handler that always raises, for the C5 witness bus. -/
def seqBadHandler : Handler := ⟨11, "handler_bad", fun _ => Except.error "bad"⟩

/-- Two handlers registered for `ORDER_CREATED`, none for `ERROR`. -/
def seqBus : Bus := ⟨[seqOkHandler, seqBadHandler], [], []⟩

/-- Witness for C5: on a concrete bus with a succeeding and a failing
handler, the completed emit invoked both, in registration order, with
the failure recorded rather than propagated. -/
theorem emit_sequential_complete_witness :
    invokesAt 0
      [Action.publish 0 ServiceEvent.order_created (PyVal.str "d"),
       Action.invoke 0 10 "handler_ok" ServiceEvent.order_created true,
       Action.invoke 0 11 "handler_bad" ServiceEvent.order_created false,
       Action.logError 0 "handler_bad" ServiceEvent.order_created "bad",
       Action.publish 1 ServiceEvent.error
         (errorPayload ServiceEvent.order_created "bad" "handler_bad")] =
    (seqBus.get ServiceEvent.order_created).map
      (fun h => (h.hid, h.name, isOkB (h.run (PyVal.str "d")))) :=
  emit_sequential_complete 3 0 seqBus ServiceEvent.order_created (PyVal.str "d")
    [Action.publish 0 ServiceEvent.order_created (PyVal.str "d"),
     Action.invoke 0 10 "handler_ok" ServiceEvent.order_created true,
     Action.invoke 0 11 "handler_bad" ServiceEvent.order_created false,
     Action.logError 0 "handler_bad" ServiceEvent.order_created "bad",
     Action.publish 1 ServiceEvent.error
       (errorPayload ServiceEvent.order_created "bad" "handler_bad")] rfl

section ErrorCascadeLemmas

/-- When every handler of the list succeeds on the payload, the loop
completes with one successful invocation per handler and nothing else. -/
theorem emitLoopWith_all_ok (nested : ServiceEvent → PyVal → Option (List Action))
    (depth : Nat) :
    ∀ (hs : List Handler) (ev : ServiceEvent) (data : PyVal),
      (∀ h ∈ hs, isOkB (h.run data) = true) →
      emitLoopWith nested depth hs ev data =
        some (hs.map (fun h => Action.invoke depth h.hid h.name ev true)) := by
  intro hs
  induction hs with
  | nil => intro ev data _; rfl
  | cons h hs ih =>
    intro ev data hok
    have hh := hok h (List.mem_cons_self h hs)
    cases hr : h.run data with
    | error msg => rw [hr] at hh; simp [isOkB] at hh
    | ok u =>
      simp [emitLoopWith, hr,
        ih ev data (fun h2 hh2 => hok h2 (List.mem_cons_of_mem h hh2))]

/-- When every `Error`-kind handler succeeds on every payload, a nested
`Error` publish completes immediately: one `Error` publish and one
successful invocation per `Error` handler. -/
theorem errOkEmit (bus : Bus)
    (herr : ∀ g ∈ bus.get ServiceEvent.error, ∀ p, isOkB (g.run p) = true)
    (fuel d : Nat) (p : PyVal) :
    emit (fuel + 1) d bus ServiceEvent.error p =
      some (Action.publish d ServiceEvent.error p ::
        (bus.get ServiceEvent.error).map
          (fun g => Action.invoke d g.hid g.name ServiceEvent.error true)) := by
  simp only [emit]
  rw [emitLoopWith_all_ok (emit fuel (d + 1) bus) d (bus.get ServiceEvent.error)
    ServiceEvent.error p (fun g hg => herr g hg p)]
  rfl

/-- Extraction `errorPublishData` ignores invocation steps. -/
theorem errorPublishData_cons_invoke (d i : Nat) (n : String) (e : ServiceEvent)
    (o : Bool) (l : List Action) :
    errorPublishData (Action.invoke d i n e o :: l) = errorPublishData l := by
  simp [errorPublishData, List.filterMap_cons]

/-- Extraction `errorPublishData` ignores log steps. -/
theorem errorPublishData_cons_log (d : Nat) (n : String) (e : ServiceEvent)
    (msg : String) (l : List Action) :
    errorPublishData (Action.logError d n e msg :: l) = errorPublishData l := by
  simp [errorPublishData, List.filterMap_cons]

/-- Extraction `errorPublishData` collects an `Error` publish. -/
theorem errorPublishData_cons_publish_error (d : Nat) (p : PyVal) (l : List Action) :
    errorPublishData (Action.publish d ServiceEvent.error p :: l) =
      p :: errorPublishData l := by
  simp [errorPublishData, List.filterMap_cons]

/-- Extraction `errorPublishData` ignores a publish of any other kind. -/
theorem errorPublishData_cons_publish_ne (d : Nat) (ev : ServiceEvent) (p : PyVal)
    (l : List Action) (hev : ev ≠ ServiceEvent.error) :
    errorPublishData (Action.publish d ev p :: l) = errorPublishData l := by
  cases ev with
  | error => exact absurd rfl hev
  | order_created => simp [errorPublishData, List.filterMap_cons]
  | order_updated => simp [errorPublishData, List.filterMap_cons]

/-- Extraction `errorPublishData` distributes over trace concatenation. -/
theorem errorPublishData_append (l1 l2 : List Action) :
    errorPublishData (l1 ++ l2) = errorPublishData l1 ++ errorPublishData l2 := by
  simp [errorPublishData, List.filterMap_append]

/-- A block of invocation steps contributes no `Error` publish. -/
theorem errorPublishData_invokes (d : Nat) (ev : ServiceEvent) (hs : List Handler) :
    errorPublishData (hs.map (fun g => Action.invoke d g.hid g.name ev true)) = [] := by
  induction hs with
  | nil => rfl
  | cons g hs ih => rw [List.map_cons, errorPublishData_cons_invoke]; exact ih

/-- With all `Error` handlers healthy, the loop completes and publishes
exactly one `Error` event per failing handler of its list, carrying that
handler's message and name with the original kind. -/
theorem emitLoopWith_some_errorPublishes (bus : Bus) (fuel dep : Nat)
    (herr : ∀ g ∈ bus.get ServiceEvent.error, ∀ p, isOkB (g.run p) = true) :
    ∀ (hs : List Handler) (ev : ServiceEvent) (data : PyVal),
      ∃ tr, emitLoopWith (emit (fuel + 1) (dep + 1) bus) dep hs ev data = some tr ∧
        errorPublishData tr = hs.filterMap (fun h =>
          match h.run data with
          | Except.error msg => some (errorPayload ev msg h.name)
          | Except.ok _ => none) := by
  intro hs
  induction hs with
  | nil => intro ev data; exact ⟨[], rfl, rfl⟩
  | cons h hs ih =>
    intro ev data
    obtain ⟨tr0, hloop, hdata⟩ := ih ev data
    cases hr : h.run data with
    | ok u =>
      refine ⟨Action.invoke dep h.hid h.name ev true :: tr0, ?_, ?_⟩
      · simp [emitLoopWith, hr, hloop]
      · rw [errorPublishData_cons_invoke, hdata, List.filterMap_cons, hr]
    | error msg =>
      refine ⟨Action.invoke dep h.hid h.name ev false ::
        (Action.logError dep h.name ev msg ::
          ((Action.publish (dep + 1) ServiceEvent.error (errorPayload ev msg h.name) ::
            (bus.get ServiceEvent.error).map
              (fun g => Action.invoke (dep + 1) g.hid g.name ServiceEvent.error true)) ++ tr0)),
        ?_, ?_⟩
      · simp only [emitLoopWith, hr,
          errOkEmit bus herr fuel (dep + 1) (errorPayload ev msg h.name), hloop,
          Option.map_some', List.cons_append]
      · rw [errorPublishData_cons_invoke, errorPublishData_cons_log, List.cons_append,
          errorPublishData_cons_publish_error, errorPublishData_append,
          errorPublishData_invokes, List.nil_append, hdata, List.filterMap_cons, hr]

/-- If some handler of the list fails on the payload and every nested
`Error` publish fails to complete, the loop fails to complete. -/
theorem emitLoopWith_none (nested : ServiceEvent → PyVal → Option (List Action))
    (depth : Nat)
    (hnone : ∀ q, nested ServiceEvent.error q = none) :
    ∀ (hs : List Handler) (ev : ServiceEvent) (p : PyVal),
      (∃ g ∈ hs, isOkB (g.run p) = false) →
      emitLoopWith nested depth hs ev p = none := by
  intro hs
  induction hs with
  | nil =>
    rintro ev p ⟨g, hg, _⟩
    simp at hg
  | cons h hs ih =>
    rintro ev p ⟨g, hg, hgf⟩
    cases hr : h.run p with
    | error msg => simp [emitLoopWith, hr, hnone]
    | ok u =>
      rcases List.mem_cons.mp hg with rfl | hg2
      · rw [hr] at hgf; simp [isOkB] at hgf
      · simp [emitLoopWith, hr, ih ev p ⟨g, hg2, hgf⟩]

/-- With an `Error`-kind handler that raises on every payload, no
`Error` publish ever completes, at any fuel. -/
theorem emit_error_none (bus : Bus) (g : Handler)
    (hgmem : g ∈ bus.get ServiceEvent.error)
    (hgf : ∀ p, isOkB (g.run p) = false) :
    ∀ (fuel d : Nat) (p : PyVal), emit fuel d bus ServiceEvent.error p = none := by
  intro fuel
  induction fuel with
  | zero => intro d p; rfl
  | succ fuel ih =>
    intro d p
    simp only [emit]
    rw [emitLoopWith_none (emit fuel (d + 1) bus) d (fun q => ih (d + 1) q)
      (bus.get ServiceEvent.error) ServiceEvent.error p ⟨g, hgmem, hgf p⟩]
    rfl

end ErrorCascadeLemmas

/-- C1 amended: (i) provided every `Error`-kind handler returns normally
on every payload, `publish(K, P)` with `K ≠ Error` completes and
publishes exactly one `Error` event per raising handler, whose payload
is `{"event": K, "error": msg, "handler": name}` — so it carries the
handler's identity and the original kind; (ii) but when an `Error`-kind
handler raises while handling that `Error` event, the failure is logged
AND a further `Error` event is published (the recursion is not capped at
depth 1); (iii) and with an `Error`-kind handler that raises on every
payload, the cascade never completes at any recursion bound — the
source has no recursion guard. -/
theorem emit_error_cascade_amended :
    (∀ (bus : Bus) (K : ServiceEvent) (data : PyVal) (fuel : Nat),
      K ≠ ServiceEvent.error →
      (∀ g ∈ bus.get ServiceEvent.error, ∀ p, isOkB (g.run p) = true) →
      (emit (fuel + 2) 0 bus K data).map errorPublishData =
        some ((bus.get K).filterMap (fun h =>
          match h.run data with
          | Except.error msg => some (errorPayload K msg h.name)
          | Except.ok _ => none))) ∧
    (∀ (bus : Bus) (h g : Handler) (K : ServiceEvent) (data : PyVal)
      (msg msg2 : String) (fuel : Nat),
      bus.get K = [h] → h.run data = Except.error msg →
      bus.get ServiceEvent.error = [g] →
      g.run (errorPayload K msg h.name) = Except.error msg2 →
      g.run (errorPayload ServiceEvent.error msg2 g.name) = Except.ok () →
      emit (fuel + 3) 0 bus K data = some
        [Action.publish 0 K data,
         Action.invoke 0 h.hid h.name K false,
         Action.logError 0 h.name K msg,
         Action.publish 1 ServiceEvent.error (errorPayload K msg h.name),
         Action.invoke 1 g.hid g.name ServiceEvent.error false,
         Action.logError 1 g.name ServiceEvent.error msg2,
         Action.publish 2 ServiceEvent.error (errorPayload ServiceEvent.error msg2 g.name),
         Action.invoke 2 g.hid g.name ServiceEvent.error true]) ∧
    (∀ (bus : Bus) (K : ServiceEvent) (data : PyVal),
      (∃ h ∈ bus.get K, isOkB (h.run data) = false) →
      (∃ g ∈ bus.get ServiceEvent.error, ∀ p, isOkB (g.run p) = false) →
      ∀ fuel, emit fuel 0 bus K data = none) := by
  refine ⟨?_, ?_, ?_⟩
  · intro bus K data fuel hK herr
    obtain ⟨tr0, hloop, hdata⟩ :=
      emitLoopWith_some_errorPublishes bus fuel 0 herr (bus.get K) K data
    have hstep : emit (fuel + 2) 0 bus K data =
        (emitLoopWith (emit (fuel + 1) (0 + 1) bus) 0 (bus.get K) K data).map
          (fun tr => Action.publish 0 K data :: tr) := rfl
    have hemit : emit (fuel + 2) 0 bus K data =
        some (Action.publish 0 K data :: tr0) := by
      rw [hstep, hloop]
      rfl
    rw [hemit, Option.map_some', errorPublishData_cons_publish_ne 0 K data tr0 hK, hdata]
  · intro bus h g K data msg msg2 fuel hgetK hrunh hgetE hrung1 hrung2
    simp only [emit, hgetK, hgetE, emitLoopWith, hrunh, hrung1, hrung2,
      Option.map_some', List.cons_append, List.nil_append, List.append_nil]
  · rintro bus K data ⟨h, hh, hhf⟩ ⟨g, hg, hgf⟩ fuel
    cases fuel with
    | zero => rfl
    | succ fuel =>
      simp only [emit]
      rw [emitLoopWith_none (emit fuel (0 + 1) bus) 0
        (fun q => emit_error_none bus g hg hgf fuel (0 + 1) q)
        (bus.get K) K data ⟨h, hh, hhf⟩]
      rfl

/-- An `ORDER_CREATED` handler that always raises. -/
def cexFailingHandler : Handler := ⟨1, "failing_handler", fun _ => Except.error "boom"⟩

/-- An `ERROR` handler that raises while handling an `Error` event about
an `ORDER_CREATED` failure, but returns normally on an `Error` event
about an `Error` failure (so the cascade terminates and can be
observed). -/
def cexErrorHandler : Handler :=
  ⟨2, "error_handler", fun p =>
    match p with
    | PyVal.dict fields =>
      match fields.find? (fun q => q.1 == "event") with
      | some (_, PyVal.event ServiceEvent.error) => Except.ok ()
      | _ => Except.error "error handler crashed"
    | _ => Except.error "error handler crashed"⟩

/-- One failing `ORDER_CREATED` handler and one `ERROR` handler that
raises on the first `Error` event. -/
def cexBus : Bus := ⟨[cexFailingHandler], [], [cexErrorHandler]⟩

/-- C1 counterexample: when the `ERROR` handler raises while handling
the `Error` event produced by a failing `ORDER_CREATED` handler, the
completed emit publishes TWO `Error` events — the second one (about the
`Error` handler itself) is re-published, not merely logged, refuting the
depth-1 recursion cap. -/
theorem emit_error_republished_cex :
    (emit 10 0 cexBus ServiceEvent.order_created (PyVal.str "x")).map errorPublishData =
      some [errorPayload ServiceEvent.order_created "boom" "failing_handler",
            errorPayload ServiceEvent.error "error handler crashed" "error_handler"] := rfl

/-- Witness for C1's amended theorem: the exact trace of the cascade on
the concrete bus, at nesting bound 3, including the logged failure and
the re-published second `Error` event. -/
theorem emit_error_cascade_amended_witness :
    emit 3 0 cexBus ServiceEvent.order_created (PyVal.str "x") = some
      [Action.publish 0 ServiceEvent.order_created (PyVal.str "x"),
       Action.invoke 0 1 "failing_handler" ServiceEvent.order_created false,
       Action.logError 0 "failing_handler" ServiceEvent.order_created "boom",
       Action.publish 1 ServiceEvent.error
         (errorPayload ServiceEvent.order_created "boom" "failing_handler"),
       Action.invoke 1 2 "error_handler" ServiceEvent.error false,
       Action.logError 1 "error_handler" ServiceEvent.error "error handler crashed",
       Action.publish 2 ServiceEvent.error
         (errorPayload ServiceEvent.error "error handler crashed" "error_handler"),
       Action.invoke 2 2 "error_handler" ServiceEvent.error true] :=
  emit_error_cascade_amended.2.1 cexBus cexFailingHandler cexErrorHandler
    ServiceEvent.order_created (PyVal.str "x") "boom" "error handler crashed" 0
    rfl rfl rfl rfl rfl

/-- The all-flags-down orchestrator state used by witnesses. -/
def freshOrchState : OrchState := ⟨false, false, Bus.empty, false, false, false⟩

/-- C7: if an adapter's `initialize` raises during `_initialize_full`
(whichever of the three it is — the later ones are not attempted), the
call surfaces an error to the caller and the `_initialized` flag is
still `False` afterwards, so a later caller can retry from scratch;
moreover for an ordinary (non-`AttributeError`) adapter exception the
surfaced error is the `ServiceInitializationError`. -/
theorem initFull_adapter_failure (st : OrchState)
    (sInit eInit mInit : Except PyExc Unit) (exc : PyExc)
    (hinit : st.initialized = false)
    (hfail : sInit = Except.error exc ∨
      (sInit = Except.ok () ∧ eInit = Except.error exc) ∨
      (sInit = Except.ok () ∧ eInit = Except.ok () ∧ mInit = Except.error exc)) :
    (initFull st (Except.ok ()) sInit eInit mInit).1.initialized = false ∧
    raisedInitError (initFull st (Except.ok ()) sInit eInit mInit).2 = true ∧
    (∀ msg, exc = PyExc.otherExc msg →
      (initFull st (Except.ok ()) sInit eInit mInit).2 =
        Except.error (InitError.initFailed ("Failed to set up services: " ++ msg))) := by
  rcases hfail with hs | ⟨hs, he⟩ | ⟨hs, he, hm⟩
  · subst hs
    cases exc with
    | attributeError msg =>
      refine ⟨?_, ?_, ?_⟩
      · simp [initFull, hinit]
      · simp [initFull, hinit, raisedInitError]
      · intro msg2 hexc; cases hexc
    | otherExc msg =>
      refine ⟨?_, ?_, ?_⟩
      · simp [initFull, hinit]
      · simp [initFull, hinit, raisedInitError]
      · intro msg2 hexc
        cases hexc
        simp [initFull, hinit]
  · subst hs; subst he
    cases exc with
    | attributeError msg =>
      refine ⟨?_, ?_, ?_⟩
      · simp [initFull, hinit]
      · simp [initFull, hinit, raisedInitError]
      · intro msg2 hexc; cases hexc
    | otherExc msg =>
      refine ⟨?_, ?_, ?_⟩
      · simp [initFull, hinit]
      · simp [initFull, hinit, raisedInitError]
      · intro msg2 hexc
        cases hexc
        simp [initFull, hinit]
  · subst hs; subst he; subst hm
    cases exc with
    | attributeError msg =>
      refine ⟨?_, ?_, ?_⟩
      · simp [initFull, hinit]
      · simp [initFull, hinit, raisedInitError]
      · intro msg2 hexc; cases hexc
    | otherExc msg =>
      refine ⟨?_, ?_, ?_⟩
      · simp [initFull, hinit]
      · simp [initFull, hinit, raisedInitError]
      · intro msg2 hexc
        cases hexc
        simp [initFull, hinit]

/-- Witness for C7 with the Shopify adapter failing with an ordinary
exception on a fresh state. -/
theorem initFull_adapter_failure_witness :
    (initFull freshOrchState (Except.ok ())
      (Except.error (PyExc.otherExc "conn refused")) (Except.ok ())
      (Except.ok ())).1.initialized = false ∧
    raisedInitError (initFull freshOrchState (Except.ok ())
      (Except.error (PyExc.otherExc "conn refused")) (Except.ok ())
      (Except.ok ())).2 = true ∧
    (∀ msg, PyExc.otherExc "conn refused" = PyExc.otherExc msg →
      (initFull freshOrchState (Except.ok ())
        (Except.error (PyExc.otherExc "conn refused")) (Except.ok ())
        (Except.ok ())).2 =
          Except.error (InitError.initFailed ("Failed to set up services: " ++ msg))) :=
  initFull_adapter_failure freshOrchState
    (Except.error (PyExc.otherExc "conn refused")) (Except.ok ()) (Except.ok ())
    (PyExc.otherExc "conn refused") rfl (Or.inl rfl)

end ShopSpec
